import Mathlib

/-!
Verification of the etcd server bootstrap module
(`server/etcdserver/bootstrap.go`).

The Go source is shallowly embedded: each Go function relevant to the
claims is translated into an executable Lean definition over explicit
data types.  Collaborator packages that are not part of the reviewed
unit (the raft library, the wal/snap/serverstorage packages, the
membership package) appear either as environment inputs recording the
results of their calls, or — where a claim is decided by their
behaviour — as definitions modelled from the specification and marked
as such in their doc comments.
-/

namespace EtcdBootstrap

/-- A raft log entry (`raftpb.Entry`): its index and term.  Payload data
is irrelevant to every claim and omitted. -/
structure Entry where
  index : Nat
  term : Nat
deriving Repr, DecidableEq

/-- The raft hard state (`raftpb.HardState`): durable term/vote/commit. -/
structure HardState where
  term : Nat
  vote : Nat
  commit : Nat
deriving Repr, DecidableEq

/-- Snapshot metadata (`raftpb.SnapshotMetadata`): the log position the
snapshot corresponds to. -/
structure SnapshotMeta where
  index : Nat
  term : Nat
deriving Repr, DecidableEq

/-- A snapshot (`raftpb.Snapshot`): metadata plus opaque store data. -/
structure Snapshot where
  meta : SnapshotMeta
  data : Nat
deriving Repr, DecidableEq

/-- Error tags for the error values produced inside `bootstrap.go`.
Each constructor corresponds to one distinct error return site. -/
inductive BErr where
  /-- error returned by `maybeDefragBackend` -/
  | defrag
  /-- error returned by `wal.ValidSnapshotEntries` -/
  | walSnaps
  /-- a snapshot-loading error other than `snap.ErrNoSnapshot` -/
  | snapLoad
  /-- error from `serverstorage.AssertNoV2StoreContent` -/
  | v2Content
  /-- the "database file does not match with snapshot" consistency error -/
  | dbMismatch
  /-- error from `schema.Validate` -/
  | schemaErr
  /-- an error returned by `bootstrapCluster` -/
  | clusterErr
  /-- the "database file of the backend is missing" error -/
  | dbMissing
  /-- the "cannot write to member directory" error -/
  | memberDir
deriving Repr, DecidableEq

/-! Section: Cluster path selection (`bootstrapCluster`, first and second switch)

`bootstrapCluster` contains two Go `switch` statements over the pair
`(haveWAL, cfg.NewCluster)`.  Each is translated separately, mirroring
its own case order, so that the theorem that they always agree is about
two independent renderings of the source. -/

/-- Which of the three bootstrap paths a switch selects; `unsupported`
is the `default:` branch returning the "unsupported bootstrap config"
error. -/
inductive ClusterPath where
  | joinExisting
  | newCluster
  | restartFromLog
  | unsupported
deriving Repr, DecidableEq

/-- The first `switch` of `bootstrapCluster` (cluster resolution):
case order as in the source: `!haveWAL && !cfg.NewCluster`,
`!haveWAL && cfg.NewCluster`, `haveWAL`, `default`. -/
def bootstrapClusterFirstSwitch (haveWAL newCluster : Bool) : ClusterPath :=
  if !haveWAL && !newCluster then ClusterPath.joinExisting
  else if !haveWAL && newCluster then ClusterPath.newCluster
  else if haveWAL then ClusterPath.restartFromLog
  else ClusterPath.unsupported

/-- The second `switch` of `bootstrapCluster` (raft construction):
the same guards in the same order, written out again independently of
the first switch. -/
def bootstrapClusterSecondSwitch (haveWAL newCluster : Bool) : ClusterPath :=
  if !haveWAL && !newCluster then ClusterPath.joinExisting
  else if !haveWAL && newCluster then ClusterPath.newCluster
  else if haveWAL then ClusterPath.restartFromLog
  else ClusterPath.unsupported

/-! Section: Raft peers and node start (`bootstrapRaftFromCluster`,
`bootstrapRaftFromSnapshot`, `newRaftNode`) -/

/-- A cluster member (`membership.Member`): its ID plus an opaque
descriptor payload standing for the remaining fields. -/
structure Member where
  id : Nat
  descriptor : Nat
deriving Repr, DecidableEq

/-- The resolved membership (`membership.RaftCluster`), reduced to the
member set; only `MemberIDs` and `Member` lookups are used by the
embedded functions. -/
structure RaftCluster where
  members : List Member
deriving Repr, DecidableEq

/-- Embeds `RaftCluster.MemberIDs`: the IDs of all current members. -/
def RaftCluster.MemberIDs (cl : RaftCluster) : List Nat :=
  cl.members.map Member.id

/-- Embeds `RaftCluster.Member`: lookup of a member by ID (`nil` when absent). -/
def RaftCluster.Member (cl : RaftCluster) (id : Nat) : Option Member :=
  cl.members.find? (fun m => m.id == id)

/-- Stands for `json.Marshal` applied to a (possibly nil) member
pointer: a fixed injective byte encoding of the descriptor. -/
def jsonMarshalMember : Option Member → List Nat
  | none => [0]
  | some m => [1, m.id, m.descriptor]

/-- A raft peer (`raft.Peer`): numeric ID plus opaque context bytes. -/
structure RaftPeer where
  id : Nat
  context : List Nat
deriving Repr, DecidableEq

/-- The part of `bootstrappedRaft` the claims depend on: the peer list
handed to the consensus engine. -/
structure BootstrappedRaft where
  peers : List RaftPeer
deriving Repr, DecidableEq

/-- Embeds `bootstrapRaftFromCluster`: builds one `raft.Peer` per supplied ID,
the context being the JSON-serialized member descriptor. -/
def bootstrapRaftFromCluster (cl : RaftCluster) (ids : List Nat) : BootstrappedRaft :=
  { peers := ids.map (fun id => { id := id, context := jsonMarshalMember (cl.Member id) }) }

/-- Embeds `bootstrapRaftFromSnapshot`: constructs the raft value without
setting `peers` (Go zero value: nil slice). -/
def bootstrapRaftFromSnapshot : BootstrappedRaft :=
  { peers := [] }

/-- The second switch of `bootstrapCluster` rendered with its branch
bodies: which raft constructor runs on each path (`none` is the
unreachable `default` branch). -/
def bootstrapClusterRaft (haveWAL newCluster : Bool) (cl : RaftCluster) :
    Option BootstrappedRaft :=
  if !haveWAL && !newCluster then some (bootstrapRaftFromCluster cl [])
  else if !haveWAL && newCluster then some (bootstrapRaftFromCluster cl cl.MemberIDs)
  else if haveWAL then some bootstrapRaftFromSnapshot
  else none

/-- How `newRaftNode` starts the consensus engine. -/
inductive NodeStart where
  | restartNode
  | startNode (peers : List RaftPeer)
deriving Repr, DecidableEq

/-- Embeds `bootstrappedRaft.newRaftNode`, reduced to the start decision:
`raft.RestartNode` when the peer list is empty, `raft.StartNode` with
the peers otherwise. -/
def newRaftNode (b : BootstrappedRaft) : NodeStart :=
  if b.peers.length == 0 then NodeStart.restartNode
  else NodeStart.startNode b.peers

/-! Section: In-memory raft log storage (`bootstrappedWAL.MemoryStorage`)

`raft.MemoryStorage` is a collaborator; what the claims constrain is
the order in which `MemoryStorage()` applies its components, so the
storage is embedded as a trace of the operations applied to it. -/

/-- One operation applied to the in-memory raft storage. -/
inductive StorageOp where
  | applySnapshot (s : Snapshot)
  | setHardState (st : HardState)
  | append (ents : List Entry)
deriving Repr, DecidableEq

/-- The in-memory raft storage, as the trace of operations applied. -/
structure MemoryStorage where
  ops : List StorageOp
deriving Repr, DecidableEq

/-- Embeds `raft.NewMemoryStorage()`: a fresh storage with no ops applied. -/
def NewMemoryStorage : MemoryStorage := { ops := [] }

/-- Embeds `MemoryStorage.ApplySnapshot`. -/
def MemoryStorage.ApplySnapshot (s : MemoryStorage) (snap : Snapshot) : MemoryStorage :=
  { ops := s.ops ++ [StorageOp.applySnapshot snap] }

/-- Embeds `MemoryStorage.SetHardState`. -/
def MemoryStorage.SetHardState (s : MemoryStorage) (st : HardState) : MemoryStorage :=
  { ops := s.ops ++ [StorageOp.setHardState st] }

/-- Embeds `MemoryStorage.Append`. -/
def MemoryStorage.Append (s : MemoryStorage) (ents : List Entry) : MemoryStorage :=
  { ops := s.ops ++ [StorageOp.append ents] }

/-! Section: The bootstrapped WAL (`bootstrappedWAL` and its methods) -/

/-- Embeds `bootstrappedWAL`, without the logger and the on-disk WAL handle:
hard state (a nil-able pointer in Go), entries, optional snapshot. -/
structure BootstrappedWAL where
  st : Option HardState
  ents : List Entry
  snapshot : Option Snapshot
deriving Repr, DecidableEq

/-- Embeds `bootstrappedWAL.MemoryStorage`: a fresh storage, then
`ApplySnapshot` if a snapshot is present, then `SetHardState` if the
hard state is present, then `Append` if the entry list is non-empty. -/
def BootstrappedWAL.MemoryStorage (w : BootstrappedWAL) : MemoryStorage :=
  let s := NewMemoryStorage
  let s := match w.snapshot with
    | some snap => s.ApplySnapshot snap
    | none => s
  let s := match w.st with
    | some st => s.SetHardState st
    | none => s
  let s := if w.ents.length != 0 then s.Append w.ents else s
  s

/-- The scanning loop of `bootstrappedWAL.CommitedEntries`: return the
prefix of the entries before the first entry whose index exceeds the
commit marker (the whole list when there is none). -/
def commitedEntriesLoop (commit : Nat) : List Entry → List Entry
  | [] => []
  | e :: rest =>
    if e.index > commit then []
    else e :: commitedEntriesLoop commit rest

/-- Embeds `bootstrappedWAL.CommitedEntries`.  In Go `wal.st` is dereferenced
unconditionally; the method is only ever called on the
snapshot-recovery path, where the pointer is always non-nil, so the
`none` case (a nil-pointer panic in Go) is rendered as `[]`. -/
def BootstrappedWAL.CommitedEntries (w : BootstrappedWAL) : List Entry :=
  match w.st with
  | some st => commitedEntriesLoop st.commit w.ents
  | none => []

/-- Embeds `bootstrappedWAL.AppendAndCommitEntries`: append the given entries
to the in-memory entry list (the on-disk `w.Save` side effect is not
modelled), and, when the resulting list is non-empty, set the commit
marker to the index of its last entry.  As with `CommitedEntries`, the
`wal.st` pointer is always non-nil where this is called, modelled by
`Option.map`. -/
def BootstrappedWAL.AppendAndCommitEntries (w : BootstrappedWAL) (ents : List Entry) :
    BootstrappedWAL :=
  match (w.ents ++ ents).getLast? with
  | none => { w with ents := w.ents ++ ents }
  | some last =>
    { w with
      ents := w.ents ++ ents
      st := w.st.map (fun st => { st with commit := last.index }) }

/-- Modelled from the spec: `serverstorage.CreateConfigChangeEnts` (the
`server/storage` package is not under the reviewed sources).  Per the
spec it synthesizes one membership-configuration-change entry per
currently known member ID, minus the local node, positioned at
incrementing indices after the commit marker, with the given term. -/
def CreateConfigChangeEnts (ids : List Nat) (selfID : Nat) (term commit : Nat) :
    List Entry :=
  (List.range (ids.filter (fun i => i != selfID)).length).map
    (fun k => { index := commit + 1 + k, term := term })

/-- Embeds `bootstrappedWAL.ConfigChangeEntries`: delegates to
`CreateConfigChangeEnts` with the known member IDs (the result of
`serverstorage.GetIDs`, supplied here as `ids`), the local node ID, and
the hard-state term and commit.  The nil-pointer case is again
unreachable where this is called. -/
def BootstrappedWAL.ConfigChangeEntries (w : BootstrappedWAL) (ids : List Nat)
    (nodeID : Nat) : List Entry :=
  match w.st with
  | some st => CreateConfigChangeEnts ids nodeID st.term st.commit
  | none => []

/-- What `openWALFromSnapshot` returns on success: the hard state, the
entries after the snapshot position, the snapshot, and the WAL-stored
metadata `{nodeID, clusterID}`. -/
structure WALReadResult where
  st : HardState
  ents : List Entry
  snapshot : Option Snapshot
  nodeID : Nat
  clusterID : Nat
deriving Repr, DecidableEq

/-- Embeds `bootstrapWALFromSnapshot`, given the result of
`openWALFromSnapshot`: package the read state into a `bootstrappedWAL`;
when `ForceNewCluster` is set, replace the entries by the committed
prefix, synthesize config-change entries, and append-and-commit them;
otherwise return the packaged state unchanged.  `ids` stands for the
result of `serverstorage.GetIDs` on the snapshot and entries. -/
def bootstrapWALFromSnapshot (forceNewCluster : Bool) (r : WALReadResult)
    (ids : List Nat) : BootstrappedWAL :=
  let bwal : BootstrappedWAL :=
    { st := some r.st, ents := r.ents, snapshot := r.snapshot }
  if forceNewCluster then
    let bwal := { bwal with ents := bwal.CommitedEntries }
    let entries := bwal.ConfigChangeEntries ids r.nodeID
    bwal.AppendAndCommitEntries entries
  else
    bwal

/-! Section: The WAL open/repair loop (`openWALFromSnapshot`) -/

/-- Outcome of one `w.ReadAll()` call. -/
inductive ReadResult where
  /-- successful read: metadata bytes, hard state, entries -/
  | ok (metadata : Nat) (st : HardState) (ents : List Entry)
  /-- Embeds `io.ErrUnexpectedEOF`: a truncated tail -/
  | unexpectedEOF
  /-- any other read error -/
  | otherErr
deriving Repr, DecidableEq

/-- Outcome of the `openWALFromSnapshot` loop.  `iterations` counts
loop iterations executed; `repairs` counts `wal.Repair` invocations.
`fatal` covers every `Logger.Fatal` site (process termination). -/
inductive WALOutcome where
  | opened (iterations : Nat) (repairs : Nat) (metadata : Nat) (st : HardState)
      (ents : List Entry)
  | fatal (iterations : Nat) (repairs : Nat)
deriving Repr, DecidableEq

/-- The environment of one bootstrap attempt in `openWALFromSnapshot`:
per-iteration outcomes of the collaborator calls. -/
structure WALEnv where
  /-- whether `wal.Open` fails on iteration i (a `Fatal`) -/
  openFails : Nat → Bool
  /-- the result of `w.ReadAll()` on iteration i -/
  reads : Nat → ReadResult
  /-- whether `wal.Repair` succeeds when invoked -/
  repairOk : Bool

/-- The `for {}` loop of `openWALFromSnapshot`, with explicit fuel
(`none` meaning the fuel ran out before the loop terminated): open the
WAL (failure is fatal), read it; a successful read returns; on
`io.ErrUnexpectedEOF` with no repair yet attempted, repair (failure is
fatal) and retry; any other error, or a second `unexpectedEOF` after a
repair, is fatal. -/
def openWALLoop (env : WALEnv) : Nat → Nat → Bool → Nat → Option WALOutcome
  | 0, _, _, _ => none
  | fuel + 1, iter, repaired, repairs =>
    if env.openFails iter then some (WALOutcome.fatal (iter + 1) repairs)
    else
      match env.reads iter with
      | ReadResult.ok md st ents =>
        some (WALOutcome.opened (iter + 1) repairs md st ents)
      | ReadResult.otherErr => some (WALOutcome.fatal (iter + 1) repairs)
      | ReadResult.unexpectedEOF =>
        if repaired then some (WALOutcome.fatal (iter + 1) repairs)
        else if !env.repairOk then some (WALOutcome.fatal (iter + 1) repairs)
        else openWALLoop env fuel (iter + 1) true (repairs + 1)

/-- Embeds `openWALFromSnapshot`, entered with `repaired = false` and the
given fuel. -/
def openWALFromSnapshot (env : WALEnv) (fuel : Nat) : Option WALOutcome :=
  openWALLoop env fuel 0 false 0

/-! Section: Snapshot selection and recovery (`recoverSnapshot`)

Backend handles are identified by natural numbers: handle `0` is the
one returned by `serverstorage.OpenBackend`; `RecoverSnapshotBackend`
may replace it with a different handle. -/

/-- A snapshot file on disk, as seen by the snapshotter: the position
it claims, whether loading it succeeds, and its payload. -/
structure SnapFile where
  meta : SnapshotMeta
  loadable : Bool
  data : Nat
deriving Repr, DecidableEq

/-- Error results of `Snapshotter.LoadNewestAvailable`:
`snap.ErrNoSnapshot`, or any other loading error. -/
inductive SnapLoadErr where
  | noSnapshot
  | otherLoad
deriving Repr, DecidableEq

/-- Modelled from the spec: `snap.Snapshotter.LoadNewestAvailable` (the
`api/snap` package is not under the reviewed sources).  Per the spec it
considers only snapshot files referenced by valid positions in the
durable log, newest first, and selects the first one that is actually
loadable, skipping orphaned/unloadable files; when none qualifies it
reports the no-snapshot condition. -/
def LoadNewestAvailable (walSnaps : List SnapshotMeta) (files : List SnapFile) :
    Except SnapLoadErr Snapshot :=
  match walSnaps.reverse.findSome? (fun m =>
      (files.find? (fun f => f.meta == m && f.loadable)).map
        (fun f => ({ meta := f.meta, data := f.data } : Snapshot))) with
  | some s => Except.ok s
  | none => Except.error SnapLoadErr.noSnapshot

/-- Results of the collaborator calls made by `recoverSnapshot` during
one bootstrap attempt. -/
structure RecoverEnv where
  /-- result of `wal.ValidSnapshotEntries` -/
  walSnaps : Except BErr (List SnapshotMeta)
  /-- result of `ss.LoadNewestAvailable(walSnaps)` -/
  loadRes : Except SnapLoadErr Snapshot
  /-- whether `st.Recovery(snapshot.Data)` succeeds -/
  recoveryOk : Bool
  /-- whether `serverstorage.AssertNoV2StoreContent` succeeds -/
  v2ContentOk : Bool
  /-- result of `serverstorage.RecoverSnapshotBackend`: the (possibly
  replaced) backend handle, or an error -/
  recoverBackendRes : Except BErr Nat
  /-- Embeds `ci.ConsistentIndex()` read from the backend -/
  kvindex : Nat

/-- Result of `recoverSnapshot`: a `Logger.Panic` site, an error return
carrying the backend handle returned alongside it, or success with the
selected snapshot (if any) and the current backend handle. -/
inductive RecoverResult where
  | panics
  | err (e : BErr) (be : Nat)
  | ok (snapshot : Option Snapshot) (be : Nat)
deriving Repr, DecidableEq

/-- Embeds `recoverSnapshot`: list valid WAL snapshot positions (propagating
failure), load the newest available snapshot (propagating any error
other than `snap.ErrNoSnapshot`); with no snapshot, succeed with a nil
snapshot and the original backend; with a snapshot, replay it into the
v2 store (panicking on failure), assert deprecation-policy compliance
(propagating failure with the original backend), recover the backend
from the snapshot (panicking on failure, otherwise adopting the
replacement handle), and, if the backend file pre-existed, check the
consistent index against the snapshot index. -/
def recoverSnapshot (be : Nat) (beExist : Bool) (env : RecoverEnv) : RecoverResult :=
  match env.walSnaps with
  | Except.error e => RecoverResult.err e be
  | Except.ok _ =>
    match env.loadRes with
    | Except.error SnapLoadErr.otherLoad => RecoverResult.err BErr.snapLoad be
    | Except.error SnapLoadErr.noSnapshot =>
      -- "No snapshot found. Recovering WAL from scratch!"
      RecoverResult.ok none be
    | Except.ok snapshot =>
      if !env.recoveryOk then RecoverResult.panics
      else if !env.v2ContentOk then RecoverResult.err BErr.v2Content be
      else
        match env.recoverBackendRes with
        | Except.error _ => RecoverResult.panics
        | Except.ok be2 =>
          if beExist then
            if env.kvindex < snapshot.meta.index then
              if env.kvindex != 0 then RecoverResult.err BErr.dbMismatch be2
              else
                -- "consistent index was never saved" warning; proceed
                RecoverResult.ok (some snapshot) be2
            else RecoverResult.ok (some snapshot) be2
          else RecoverResult.ok (some snapshot) be2

/-! Section: Backend bootstrap and handle ownership (`bootstrapBackend`,
`bootstrap`) -/

/-- Embeds `bootstrappedBackend`, without hooks and the consistent-indexer
handle. -/
structure BootstrappedBackend where
  be : Nat
  beExist : Bool
  snapshot : Option Snapshot
deriving Repr, DecidableEq

/-- Collaborator results for one `bootstrapBackend` run. -/
structure BackendEnv where
  /-- Embeds `fileutil.Exist(cfg.BackendPath())` -/
  beExist : Bool
  /-- Embeds `cfg.ExperimentalBootstrapDefragThresholdMegabytes != 0` -/
  defragThresholdSet : Bool
  /-- whether `maybeDefragBackend` succeeds when invoked -/
  defragOk : Bool
  /-- Embeds `wal.Exist(cfg.WALDir())` -/
  haveWAL : Bool
  recoverEnv : RecoverEnv
  /-- whether `schema.Validate` succeeds when invoked -/
  schemaOk : Bool

/-- Result of `bootstrapBackend`/`bootstrap`, together with the list of
backend handles closed before returning (Go: the deferred closer in
`bootstrapBackend`, and the explicit `s.backend.be.Close()` in
`bootstrap`). -/
inductive BackendOutcome where
  | panics
  | err (e : BErr) (closed : List Nat)
  | ok (b : BootstrappedBackend) (closed : List Nat)
deriving Repr, DecidableEq

/-- Embeds `bootstrapBackend`: open the backend (handle `0`), maybe defrag,
delegate to `recoverSnapshot` when a WAL exists (adopting whatever
handle it returns), validate the schema when the file pre-existed.  The
deferred handler closes the current value of the `be` variable exactly
when an error is being returned. -/
def bootstrapBackend (env : BackendEnv) : BackendOutcome :=
  let be := 0
  if env.defragThresholdSet && !env.defragOk then
    BackendOutcome.err BErr.defrag [be]
  else
    match (if env.haveWAL then recoverSnapshot be env.beExist env.recoverEnv
           else RecoverResult.ok none be) with
    | RecoverResult.panics => BackendOutcome.panics
    | RecoverResult.err e be2 => BackendOutcome.err e [be2]
    | RecoverResult.ok snap be2 =>
      if env.beExist && !env.schemaOk then BackendOutcome.err BErr.schemaErr [be2]
      else
        BackendOutcome.ok
          { be := be2, beExist := env.beExist, snapshot := snap } []

/-- Environment of the top-level `bootstrap`, from the point where the
backend has been opened (the earlier directory/transport failures
happen before any backend exists and are out of scope here). -/
structure BootstrapEnv where
  backendEnv : BackendEnv
  /-- whether `bootstrapCluster` succeeds -/
  clusterOk : Bool

/-- Result of the top-level `bootstrap`: on success the backend handle
is transferred into the returned server value; `closed` lists the
handles closed on the way out. -/
inductive ServerOutcome where
  | panics
  | err (e : BErr) (closed : List Nat)
  | ok (be : Nat) (closed : List Nat)
deriving Repr, DecidableEq

/-- The top-level `bootstrap`, restricted to backend-handle ownership:
a `bootstrapBackend` failure propagates with whatever that closed; a
`bootstrapCluster` failure closes `s.backend.be`; on success the open
handle is transferred without being closed. -/
def bootstrap (env : BootstrapEnv) : ServerOutcome :=
  match bootstrapBackend env.backendEnv with
  | BackendOutcome.panics => ServerOutcome.panics
  | BackendOutcome.err e closed => ServerOutcome.err e closed
  | BackendOutcome.ok b closed =>
    if !env.clusterOk then ServerOutcome.err BErr.clusterErr (closed ++ [b.be])
    else ServerOutcome.ok b.be closed

/-! Section: Restart-from-log membership check (`bootstrapClusterWithWAL`) -/

/-- A semantic version as compared by `go-semver` on the
major/minor/patch triple (cluster versions carry no pre-release
component). -/
structure SemVersion where
  major : Nat
  minor : Nat
  patch : Nat
deriving Repr, DecidableEq

/-- Embeds `semver.Version.LessThan`: lexicographic on major, minor, patch. -/
def SemVersion.LessThan (a b : SemVersion) : Bool :=
  if a.major != b.major then a.major < b.major
  else if a.minor != b.minor then a.minor < b.minor
  else a.patch < b.patch

/-- Environment of `bootstrapClusterWithWAL`: results of its
collaborator calls. -/
structure ClusterWALEnv where
  /-- whether `fileutil.IsDirWriteable(cfg.MemberDir())` succeeds -/
  memberDirWriteable : Bool
  /-- Embeds `cl.Version()` after `cl.Recover` (nil-able) -/
  recoveredVersion : Option SemVersion
  /-- Embeds `storage.backend.beExist` -/
  beExist : Bool
  /-- Embeds `meta.nodeID` from the WAL metadata -/
  nodeID : Nat

/-- Result of `bootstrapClusterWithWAL`; `removedBackendFile` records
whether `os.RemoveAll(bepath)` ran before the error return. -/
inductive ClusterWALResult where
  | err (e : BErr) (removedBackendFile : Bool)
  | ok (nodeID : Nat)
deriving Repr, DecidableEq

/-- Embeds `bootstrapClusterWithWAL`: fail if the member directory is not
writeable; recover membership; if the recovered version is non-nil and
not less than 3.0 while the backend file did not pre-exist, remove the
backend file and fail; otherwise return the cluster value. -/
def bootstrapClusterWithWAL (env : ClusterWALEnv) : ClusterWALResult :=
  if !env.memberDirWriteable then ClusterWALResult.err BErr.memberDir false
  else
    match env.recoveredVersion with
    | some v =>
      if !(v.LessThan { major := 3, minor := 0, patch := 0 }) && !env.beExist then
        ClusterWALResult.err BErr.dbMissing true
      else ClusterWALResult.ok env.nodeID
    | none => ClusterWALResult.ok env.nodeID

/-! Section: Theorems -/

/-- C2: for every input pair `(haveWAL, newCluster)` exactly one of the
three cluster-resolution paths executes — `(false, false)` takes
join-existing, `(false, true)` takes new-cluster, `(true, _)` takes
restart-from-log — the second switch of `bootstrapCluster` always
selects the branch matching the first switch, and neither switch ever
reaches its "unsupported bootstrap config" default branch. -/
theorem bootstrapCluster_paths_exclusive_and_aligned :
    ∀ (haveWAL newCluster : Bool),
      bootstrapClusterFirstSwitch haveWAL newCluster ≠ ClusterPath.unsupported ∧
      bootstrapClusterSecondSwitch haveWAL newCluster ≠ ClusterPath.unsupported ∧
      bootstrapClusterSecondSwitch haveWAL newCluster =
        bootstrapClusterFirstSwitch haveWAL newCluster ∧
      bootstrapClusterFirstSwitch false false = ClusterPath.joinExisting ∧
      bootstrapClusterFirstSwitch false true = ClusterPath.newCluster ∧
      bootstrapClusterFirstSwitch true newCluster = ClusterPath.restartFromLog := by
  decide

/-- C6: the peer list handed to the consensus engine is empty on the
join-existing and restart-from-log paths, and on the new-cluster path
contains exactly the cluster's current member IDs with each context the
JSON-serialized member descriptor; `newRaftNode` starts the engine
fresh iff the peer list is non-empty and restarts it iff the peer list
is empty. -/
theorem raft_peers_and_node_start :
    ∀ (cl : RaftCluster) (nc : Bool) (r : BootstrappedRaft),
      bootstrapClusterRaft false false cl = some (bootstrapRaftFromCluster cl []) ∧
      (bootstrapRaftFromCluster cl []).peers = [] ∧
      newRaftNode (bootstrapRaftFromCluster cl []) = NodeStart.restartNode ∧
      bootstrapClusterRaft true nc cl = some bootstrapRaftFromSnapshot ∧
      bootstrapRaftFromSnapshot.peers = [] ∧
      newRaftNode bootstrapRaftFromSnapshot = NodeStart.restartNode ∧
      bootstrapClusterRaft false true cl =
        some (bootstrapRaftFromCluster cl cl.MemberIDs) ∧
      (bootstrapRaftFromCluster cl cl.MemberIDs).peers.map RaftPeer.id =
        cl.MemberIDs ∧
      (bootstrapRaftFromCluster cl cl.MemberIDs).peers =
        cl.MemberIDs.map
          (fun id => { id := id, context := jsonMarshalMember (cl.Member id) }) ∧
      (newRaftNode r = NodeStart.startNode r.peers ↔ r.peers ≠ []) ∧
      (newRaftNode r = NodeStart.restartNode ↔ r.peers = []) := by
  intro cl nc r
  refine ⟨rfl, rfl, rfl, ?_, rfl, rfl, rfl, ?_, rfl, ?_, ?_⟩
  · cases nc <;> rfl
  · simp [bootstrapRaftFromCluster, List.map_map, Function.comp_def]
  · cases hp : r.peers <;>
      simp [newRaftNode, hp]
  · cases hp : r.peers <;>
      simp [newRaftNode, hp]

/-- C5: `bootstrappedWAL.MemoryStorage` applies the components in the
order snapshot (if present), then hard state (if present), then entries
(if non-empty), skipping absent components: the operation trace equals
exactly that concatenation. -/
theorem memoryStorage_application_order :
    ∀ (w : BootstrappedWAL),
      w.MemoryStorage.ops =
        (match w.snapshot with
          | some snap => [StorageOp.applySnapshot snap]
          | none => []) ++
        (match w.st with
          | some st => [StorageOp.setHardState st]
          | none => []) ++
        (if w.ents.length != 0 then [StorageOp.append w.ents] else []) := by
  intro w
  cases hsnap : w.snapshot <;> cases hst : w.st <;>
    by_cases hents : w.ents.length != 0 <;>
      simp [BootstrappedWAL.MemoryStorage, NewMemoryStorage,
        MemoryStorage.ApplySnapshot, MemoryStorage.SetHardState,
        MemoryStorage.Append, hsnap, hst, hents]

/-- C10: with `ForceNewCluster` unset, `bootstrapWALFromSnapshot`
passes the hard state, entries and snapshot read from the WAL through
unchanged: no entries discarded or appended, commit marker untouched. -/
theorem bootstrapWAL_no_force_frame :
    ∀ (r : WALReadResult) (ids : List Nat),
      (bootstrapWALFromSnapshot false r ids).st = some r.st ∧
      (bootstrapWALFromSnapshot false r ids).ents = r.ents ∧
      (bootstrapWALFromSnapshot false r ids).snapshot = r.snapshot := by
  intro r ids
  exact ⟨rfl, rfl, rfl⟩

/-- C4: the `openWALFromSnapshot` loop terminates in at most two
iterations (fuel 2 suffices and more fuel changes nothing), invokes the
repair routine at most once, retries open+read exactly once after a
first `io.ErrUnexpectedEOF`, and treats any other read error — or a
second `io.ErrUnexpectedEOF` after the repair — as fatal. -/
theorem openWAL_repair_at_most_once :
    ∀ (env : WALEnv) (extra : Nat),
      openWALFromSnapshot env (extra + 2) = openWALFromSnapshot env 2 ∧
      openWALFromSnapshot env 2 ≠ none ∧
      (∀ it rp md st ents,
        openWALFromSnapshot env (extra + 2) =
          some (WALOutcome.opened it rp md st ents) → rp ≤ 1 ∧ it ≤ 2) ∧
      (∀ it rp,
        openWALFromSnapshot env (extra + 2) = some (WALOutcome.fatal it rp) →
          rp ≤ 1 ∧ it ≤ 2) ∧
      (env.openFails 0 = false → env.reads 0 = ReadResult.unexpectedEOF →
        env.repairOk = true → env.openFails 1 = false →
        (∀ md st ents, env.reads 1 = ReadResult.ok md st ents →
          openWALFromSnapshot env 2 =
            some (WALOutcome.opened 2 1 md st ents)) ∧
        (env.reads 1 = ReadResult.unexpectedEOF →
          openWALFromSnapshot env 2 = some (WALOutcome.fatal 2 1)) ∧
        (env.reads 1 = ReadResult.otherErr →
          openWALFromSnapshot env 2 = some (WALOutcome.fatal 2 1))) ∧
      (env.openFails 0 = false → env.reads 0 = ReadResult.otherErr →
        openWALFromSnapshot env 2 = some (WALOutcome.fatal 1 0)) := by
  intro env extra
  have hrun : ∀ f : Nat,
      openWALLoop env (f + 1) 1 true 1 =
        (if env.openFails 1 then some (WALOutcome.fatal 2 1)
         else
           match env.reads 1 with
           | ReadResult.ok md st ents => some (WALOutcome.opened 2 1 md st ents)
           | ReadResult.otherErr => some (WALOutcome.fatal 2 1)
           | ReadResult.unexpectedEOF => some (WALOutcome.fatal 2 1)) := by
    intro f
    by_cases h1 : env.openFails 1 <;>
      cases hr : env.reads 1 <;>
        simp [openWALLoop, h1, hr]
  have hmain : ∀ f : Nat,
      openWALFromSnapshot env (f + 2) =
        (if env.openFails 0 then some (WALOutcome.fatal 1 0)
         else
           match env.reads 0 with
           | ReadResult.ok md st ents => some (WALOutcome.opened 1 0 md st ents)
           | ReadResult.otherErr => some (WALOutcome.fatal 1 0)
           | ReadResult.unexpectedEOF =>
             if !env.repairOk then some (WALOutcome.fatal 1 0)
             else
               if env.openFails 1 then some (WALOutcome.fatal 2 1)
               else
                 match env.reads 1 with
                 | ReadResult.ok md st ents =>
                   some (WALOutcome.opened 2 1 md st ents)
                 | ReadResult.otherErr => some (WALOutcome.fatal 2 1)
                 | ReadResult.unexpectedEOF => some (WALOutcome.fatal 2 1)) := by
    intro f
    show openWALLoop env (f + 2) 0 false 0 = _
    by_cases h0 : env.openFails 0
    · simp [openWALLoop, h0]
    · cases hr : env.reads 0 <;>
        by_cases hrep : env.repairOk <;>
          simp [openWALLoop, h0, hr, hrep, hrun]
  have heq : openWALFromSnapshot env (extra + 2) = openWALFromSnapshot env 2 := by
    rw [hmain extra, show (2 : Nat) = 0 + 2 from rfl, hmain 0]
  refine ⟨heq, ?_, ?_, ?_, ?_, ?_⟩
  · rw [show (2 : Nat) = 0 + 2 from rfl, hmain 0]
    by_cases h0 : env.openFails 0 <;>
      cases hr : env.reads 0 <;>
        by_cases hrep : env.repairOk <;>
          by_cases h1 : env.openFails 1 <;>
            cases hr1 : env.reads 1 <;>
              simp [h0, hr, hrep, h1, hr1]
  · intro it rp md st ents h
    rw [hmain extra] at h
    revert h
    by_cases h0 : env.openFails 0 <;>
      cases hr : env.reads 0 <;>
        by_cases hrep : env.repairOk <;>
          by_cases h1 : env.openFails 1 <;>
            cases hr1 : env.reads 1 <;>
              simp [h0, hr, hrep, h1, hr1] <;>
                (intro h1 h2; omega)
  · intro it rp h
    rw [hmain extra] at h
    revert h
    by_cases h0 : env.openFails 0 <;>
      cases hr : env.reads 0 <;>
        by_cases hrep : env.repairOk <;>
          by_cases h1 : env.openFails 1 <;>
            cases hr1 : env.reads 1 <;>
              simp [h0, hr, hrep, h1, hr1] <;>
                (intro h1 h2; omega)
  · intro h0 hr hrep h1
    refine ⟨?_, ?_, ?_⟩
    · intro md st ents hr1
      rw [show (2 : Nat) = 0 + 2 from rfl, hmain 0]
      simp [h0, hr, hrep, h1, hr1]
    · intro hr1
      rw [show (2 : Nat) = 0 + 2 from rfl, hmain 0]
      simp [h0, hr, hrep, h1, hr1]
    · intro hr1
      rw [show (2 : Nat) = 0 + 2 from rfl, hmain 0]
      simp [h0, hr, hrep, h1, hr1]
  · intro h0 hr
    rw [show (2 : Nat) = 0 + 2 from rfl, hmain 0]
    simp [h0, hr]

/-- Witness for the repair-loop theorem: a first truncated read
followed by a successful repair and re-read opens the WAL on the second
iteration with exactly one repair. -/
theorem openWAL_repair_at_most_once_witness :
    openWALFromSnapshot
      { openFails := fun _ => false
        reads := fun i =>
          if i = 0 then ReadResult.unexpectedEOF
          else ReadResult.ok 7 { term := 1, vote := 0, commit := 50 } []
        repairOk := true } 2 =
      some (WALOutcome.opened 2 1 7 { term := 1, vote := 0, commit := 50 } []) :=
  ((openWAL_repair_at_most_once
      { openFails := fun _ => false
        reads := fun i =>
          if i = 0 then ReadResult.unexpectedEOF
          else ReadResult.ok 7 { term := 1, vote := 0, commit := 50 } []
        repairOk := true } 0).2.2.2.2.1 rfl rfl rfl rfl).1 7
    { term := 1, vote := 0, commit := 50 } [] rfl

/-- C8: on the restart-from-log path, a recovered membership version
that is non-nil and not less than 3.0 combined with a backend file that
did not pre-exist makes `bootstrapClusterWithWAL` remove the backend
file and fail; a nil version, a version below 3.0, or a pre-existing
backend passes the check. -/
theorem clusterWithWAL_version_backend_check :
    ∀ (env : ClusterWALEnv),
      env.memberDirWriteable = true →
      ((∀ v, env.recoveredVersion = some v →
          v.LessThan { major := 3, minor := 0, patch := 0 } = false →
          env.beExist = false →
          bootstrapClusterWithWAL env = ClusterWALResult.err BErr.dbMissing true) ∧
        (env.recoveredVersion = none →
          bootstrapClusterWithWAL env = ClusterWALResult.ok env.nodeID) ∧
        (∀ v, env.recoveredVersion = some v →
          v.LessThan { major := 3, minor := 0, patch := 0 } = true →
          bootstrapClusterWithWAL env = ClusterWALResult.ok env.nodeID) ∧
        (env.beExist = true →
          bootstrapClusterWithWAL env = ClusterWALResult.ok env.nodeID)) := by
  intro env hw
  refine ⟨?_, ?_, ?_, ?_⟩
  · intro v hv hlt hbe
    simp [bootstrapClusterWithWAL, hw, hv, hlt, hbe]
  · intro hv
    simp [bootstrapClusterWithWAL, hw, hv]
  · intro v hv hlt
    simp [bootstrapClusterWithWAL, hw, hv, hlt]
  · intro hbe
    cases hv : env.recoveredVersion with
    | none => simp [bootstrapClusterWithWAL, hw, hv]
    | some v => simp [bootstrapClusterWithWAL, hw, hv, hbe]

/-- Witness for the version/backend check: version 3.1.0 recovered with
no pre-existing backend file removes the file and fails. -/
theorem clusterWithWAL_version_backend_check_witness :
    bootstrapClusterWithWAL
      { memberDirWriteable := true
        recoveredVersion := some { major := 3, minor := 1, patch := 0 }
        beExist := false
        nodeID := 5 } =
      ClusterWALResult.err BErr.dbMissing true :=
  (clusterWithWAL_version_backend_check
      { memberDirWriteable := true
        recoveredVersion := some { major := 3, minor := 1, patch := 0 }
        beExist := false
        nodeID := 5 } rfl).1
    { major := 3, minor := 1, patch := 0 } rfl (by decide) rfl

/-- C1: when the backend pre-existed and a valid snapshot was found
(and the preceding recovery steps succeed), `recoverSnapshot` fails
with the consistency error iff the consistent index is below the
snapshot index and non-zero; a zero consistent index, or one at least
the snapshot index, proceeds successfully. -/
theorem recoverSnapshot_consistent_index_check :
    ∀ (be : Nat) (env : RecoverEnv) (ws : List SnapshotMeta) (snap : Snapshot)
      (be2 : Nat),
      env.walSnaps = Except.ok ws →
      env.loadRes = Except.ok snap →
      env.recoveryOk = true →
      env.v2ContentOk = true →
      env.recoverBackendRes = Except.ok be2 →
      ((env.kvindex < snap.meta.index → env.kvindex ≠ 0 →
          recoverSnapshot be true env = RecoverResult.err BErr.dbMismatch be2) ∧
        (env.kvindex = 0 →
          recoverSnapshot be true env = RecoverResult.ok (some snap) be2) ∧
        (snap.meta.index ≤ env.kvindex →
          recoverSnapshot be true env = RecoverResult.ok (some snap) be2)) := by
  intro be env ws snap be2 hws hload hrec hv2 hrb
  refine ⟨?_, ?_, ?_⟩
  · intro hlt hne
    simp [recoverSnapshot, hws, hload, hrec, hv2, hrb, hlt, hne]
  · intro h0
    rcases Nat.eq_zero_or_pos snap.meta.index with hz | hp
    · simp [recoverSnapshot, hws, hload, hrec, hv2, hrb, h0, hz]
    · simp [recoverSnapshot, hws, hload, hrec, hv2, hrb, h0, hp]
  · intro hge
    have hnlt : ¬env.kvindex < snap.meta.index := Nat.not_lt.mpr hge
    simp [recoverSnapshot, hws, hload, hrec, hv2, hrb, hnlt]

/-- Witness for the consistent-index check: index 3 below snapshot
index 5 and non-zero fails with the mismatch error, carrying the
recovered backend handle. -/
theorem recoverSnapshot_consistent_index_check_witness :
    recoverSnapshot 0 true
      { walSnaps := Except.ok []
        loadRes := Except.ok { meta := { index := 5, term := 2 }, data := 9 }
        recoveryOk := true
        v2ContentOk := true
        recoverBackendRes := Except.ok 1
        kvindex := 3 } =
      RecoverResult.err BErr.dbMismatch 1 :=
  (recoverSnapshot_consistent_index_check 0
      { walSnaps := Except.ok []
        loadRes := Except.ok { meta := { index := 5, term := 2 }, data := 9 }
        recoveryOk := true
        v2ContentOk := true
        recoverBackendRes := Except.ok 1
        kvindex := 3 } []
      { meta := { index := 5, term := 2 }, data := 9 } 1 rfl rfl rfl rfl rfl).1
    (by decide) (by decide)

/-- C9: the snapshot loader selects only loadable files referenced by
valid WAL positions and reports the no-snapshot condition when none
qualifies; `recoverSnapshot` treats the no-snapshot condition as
success with a nil snapshot and the original backend, while any other
loading error is propagated. -/
theorem recoverSnapshot_no_snapshot_not_error :
    (∀ (walSnaps : List SnapshotMeta) (files : List SnapFile) (s : Snapshot),
        LoadNewestAvailable walSnaps files = Except.ok s →
        ∃ f, f ∈ files ∧ f.loadable = true ∧ f.meta ∈ walSnaps ∧
          s.meta = f.meta ∧ s.data = f.data) ∧
    (∀ (walSnaps : List SnapshotMeta) (files : List SnapFile),
        (∀ f, f ∈ files → f.meta ∈ walSnaps → f.loadable = false) →
        LoadNewestAvailable walSnaps files = Except.error SnapLoadErr.noSnapshot) ∧
    (∀ (be : Nat) (beExist : Bool) (env : RecoverEnv) (ws : List SnapshotMeta),
        env.walSnaps = Except.ok ws →
        env.loadRes = Except.error SnapLoadErr.noSnapshot →
        recoverSnapshot be beExist env = RecoverResult.ok none be) ∧
    (∀ (be : Nat) (beExist : Bool) (env : RecoverEnv) (ws : List SnapshotMeta),
        env.walSnaps = Except.ok ws →
        env.loadRes = Except.error SnapLoadErr.otherLoad →
        recoverSnapshot be beExist env = RecoverResult.err BErr.snapLoad be) := by
  have hsel : ∀ (walSnaps : List SnapshotMeta) (files : List SnapFile) (s : Snapshot),
      (walSnaps.reverse.findSome? (fun m =>
        (files.find? (fun f => f.meta == m && f.loadable)).map
          (fun f => ({ meta := f.meta, data := f.data } : Snapshot)))) = some s →
      ∃ f, f ∈ files ∧ f.loadable = true ∧ f.meta ∈ walSnaps ∧
        s.meta = f.meta ∧ s.data = f.data := by
    intro walSnaps files s hf
    rcases List.exists_of_findSome?_eq_some hf with ⟨m, hm, hmap⟩
    rcases Option.map_eq_some'.mp hmap with ⟨f, hfind, hs⟩
    have hmem : f ∈ files := List.mem_of_find?_eq_some hfind
    have hpred : (f.meta == m && f.loadable) = true := by
      have := List.find?_some hfind
      simpa using this
    have hmeta : f.meta = m := by
      have := (Bool.and_eq_true _ _).mp hpred
      exact beq_iff_eq.mp this.1
    have hload : f.loadable = true := ((Bool.and_eq_true _ _).mp hpred).2
    refine ⟨f, hmem, hload, ?_, ?_, ?_⟩
    · rw [hmeta]; exact List.mem_reverse.mp hm
    · rw [← hs]
    · rw [← hs]
  refine ⟨?_, ?_, ?_, ?_⟩
  · intro walSnaps files s h
    unfold LoadNewestAvailable at h
    revert h
    cases hf : (walSnaps.reverse.findSome? (fun m =>
        (files.find? (fun f => f.meta == m && f.loadable)).map
          (fun f => ({ meta := f.meta, data := f.data } : Snapshot)))) with
    | none => intro h; cases h
    | some s0 =>
      intro h
      have hs0 : s0 = s := by
        have := h
        simp at this
        exact this
      exact hsel walSnaps files s (hs0 ▸ hf)
  · intro walSnaps files hnone
    unfold LoadNewestAvailable
    cases hf : (walSnaps.reverse.findSome? (fun m =>
        (files.find? (fun f => f.meta == m && f.loadable)).map
          (fun f => ({ meta := f.meta, data := f.data } : Snapshot)))) with
    | none => rfl
    | some s0 =>
      rcases hsel walSnaps files s0 hf with ⟨f, hmem, hload, href, -, -⟩
      rw [hnone f hmem href] at hload
      cases hload
  · intro be beExist env ws hws hload
    simp [recoverSnapshot, hws, hload]
  · intro be beExist env ws hws hload
    simp [recoverSnapshot, hws, hload]

/-- Witness for the no-snapshot behaviour: with an empty snapshot
position list the loader reports no snapshot, and `recoverSnapshot`
succeeds with a nil snapshot and the original backend handle. -/
theorem recoverSnapshot_no_snapshot_not_error_witness :
    recoverSnapshot 0 true
      { walSnaps := Except.ok []
        loadRes := Except.error SnapLoadErr.noSnapshot
        recoveryOk := true
        v2ContentOk := true
        recoverBackendRes := Except.ok 0
        kvindex := 0 } =
      RecoverResult.ok none 0 :=
  recoverSnapshot_no_snapshot_not_error.2.2.1 0 true
    { walSnaps := Except.ok []
      loadRes := Except.error SnapLoadErr.noSnapshot
      recoveryOk := true
      v2ContentOk := true
      recoverBackendRes := Except.ok 0
      kvindex := 0 } [] rfl rfl

/-- Every `bootstrap` run either panics, fails closing exactly one
handle, or succeeds closing none. -/
theorem bootstrap_outcome_shape (env : BootstrapEnv) :
    bootstrap env = ServerOutcome.panics ∨
    (∃ e b, bootstrap env = ServerOutcome.err e [b]) ∨
    (∃ b, bootstrap env = ServerOutcome.ok b []) := by
  unfold bootstrap bootstrapBackend
  by_cases hd : (env.backendEnv.defragThresholdSet && !env.backendEnv.defragOk) = true
  · right; left
    exact ⟨BErr.defrag, 0, by simp [hd]⟩
  · cases hrec : (if env.backendEnv.haveWAL then
        recoverSnapshot 0 env.backendEnv.beExist env.backendEnv.recoverEnv
      else RecoverResult.ok none 0) with
    | panics => left; simp [hd, hrec]
    | err e b => right; left; exact ⟨e, b, by simp [hd, hrec]⟩
    | ok snap b =>
      by_cases hs : (env.backendEnv.beExist && !env.backendEnv.schemaOk) = true
      · right; left; exact ⟨BErr.schemaErr, b, by simp [hd, hrec, hs]⟩
      · by_cases hc : env.clusterOk = true
        · right; right; exact ⟨b, by simp [hd, hrec, hs, hc]⟩
        · right; left
          exact ⟨BErr.clusterErr, b, by simp [hd, hrec, hs, hc]⟩

/-- C7: after the backend is opened, every failure path closes the
backend handle that is current at the failure site — `bootstrapBackend`
closes it via its deferred handler when defrag, snapshot recovery or
schema validation fails, and `bootstrap` closes it when
`bootstrapCluster` fails — while on success the open handle is
transferred into the result without being closed. -/
theorem bootstrap_closes_backend_on_failure :
    ∀ (env : BootstrapEnv),
      (env.backendEnv.defragThresholdSet = true → env.backendEnv.defragOk = false →
        bootstrap env = ServerOutcome.err BErr.defrag [0]) ∧
      ((env.backendEnv.defragThresholdSet && !env.backendEnv.defragOk) = false →
        env.backendEnv.haveWAL = true →
        (∀ e be2,
          recoverSnapshot 0 env.backendEnv.beExist env.backendEnv.recoverEnv =
            RecoverResult.err e be2 →
          bootstrap env = ServerOutcome.err e [be2])) ∧
      ((env.backendEnv.defragThresholdSet && !env.backendEnv.defragOk) = false →
        (∀ snap be2,
          (if env.backendEnv.haveWAL then
              recoverSnapshot 0 env.backendEnv.beExist env.backendEnv.recoverEnv
            else RecoverResult.ok none 0) = RecoverResult.ok snap be2 →
          (env.backendEnv.beExist = true → env.backendEnv.schemaOk = false →
            bootstrap env = ServerOutcome.err BErr.schemaErr [be2]) ∧
          ((env.backendEnv.beExist && !env.backendEnv.schemaOk) = false →
            env.clusterOk = false →
            bootstrap env = ServerOutcome.err BErr.clusterErr [be2]) ∧
          ((env.backendEnv.beExist && !env.backendEnv.schemaOk) = false →
            env.clusterOk = true →
            bootstrap env = ServerOutcome.ok be2 []))) ∧
      (∀ e closed, bootstrap env = ServerOutcome.err e closed → closed ≠ []) ∧
      (∀ be closed, bootstrap env = ServerOutcome.ok be closed → closed = []) := by
  intro env
  refine ⟨?_, ?_, ?_, ?_, ?_⟩
  · intro h1 h2
    simp [bootstrap, bootstrapBackend, h1, h2]
  · intro hd hw e be2 hrec
    simp [bootstrap, bootstrapBackend, hd, hw, hrec]
  · intro hd snap be2 hrec
    refine ⟨?_, ?_, ?_⟩
    · intro hbe hsch
      rw [hbe] at hrec
      simp [bootstrap, bootstrapBackend, hd, hbe, hsch, hrec]
    · intro hs hc
      simp [bootstrap, bootstrapBackend, hd, hrec, hs, hc]
    · intro hs hc
      simp [bootstrap, bootstrapBackend, hd, hrec, hs, hc]
  · intro e closed h
    rcases bootstrap_outcome_shape env with hp | ⟨e2, b2, he⟩ | ⟨b2, hb⟩
    · rw [h] at hp; cases hp
    · rw [h] at he
      rcases ServerOutcome.err.inj he with ⟨-, hcl⟩
      rw [hcl]
      simp
    · rw [h] at hb; cases hb
  · intro be closed h
    rcases bootstrap_outcome_shape env with hp | ⟨e2, b2, he⟩ | ⟨b2, hb⟩
    · rw [h] at hp; cases hp
    · rw [h] at he; cases he
    · rw [h] at hb
      exact (ServerOutcome.ok.inj hb).2

/-- Witness for backend closing: with no WAL and a failing
`bootstrapCluster`, the opened handle 0 is closed on the way out. -/
theorem bootstrap_closes_backend_on_failure_witness :
    bootstrap
      { backendEnv :=
          { beExist := false
            defragThresholdSet := false
            defragOk := true
            haveWAL := false
            recoverEnv :=
              { walSnaps := Except.ok []
                loadRes := Except.error SnapLoadErr.noSnapshot
                recoveryOk := true
                v2ContentOk := true
                recoverBackendRes := Except.ok 0
                kvindex := 0 }
            schemaOk := true }
        clusterOk := false } =
      ServerOutcome.err BErr.clusterErr [0] :=
  (((bootstrap_closes_backend_on_failure
      { backendEnv :=
          { beExist := false
            defragThresholdSet := false
            defragOk := true
            haveWAL := false
            recoverEnv :=
              { walSnaps := Except.ok []
                loadRes := Except.error SnapLoadErr.noSnapshot
                recoveryOk := true
                v2ContentOk := true
                recoverBackendRes := Except.ok 0
                kvindex := 0 }
            schemaOk := true }
        clusterOk := false }).2.2.1 rfl none 0 rfl).2.1 rfl rfl)

/-- Every entry the `CommitedEntries` scan retains has index at most
the commit marker. -/
theorem commitedEntriesLoop_le (commit : Nat) :
    ∀ (l : List Entry) (e : Entry), e ∈ commitedEntriesLoop commit l →
      e.index ≤ commit := by
  intro l
  induction l with
  | nil => intro e h; simp [commitedEntriesLoop] at h
  | cons a rest ih =>
    intro e h
    by_cases ha : a.index > commit
    · simp [commitedEntriesLoop, ha] at h
    · simp [commitedEntriesLoop, ha] at h
      rcases h with rfl | h
      · omega
      · exact ih e h

/-- Every synthesized config-change entry sits strictly above the
commit marker and carries the given term. -/
theorem createConfigChangeEnts_index_gt (ids : List Nat) (selfID term commit : Nat) :
    ∀ e ∈ CreateConfigChangeEnts ids selfID term commit,
      commit < e.index ∧ e.term = term := by
  intro e he
  unfold CreateConfigChangeEnts at he
  rcases List.mem_map.mp he with ⟨k, hk, rfl⟩
  refine ⟨?_, rfl⟩
  show commit < commit + 1 + k
  omega

/-- The synthesized config-change entries are strictly increasing in
index. -/
theorem createConfigChangeEnts_increasing (ids : List Nat) (selfID term commit : Nat) :
    List.Pairwise (fun a b => a.index < b.index)
      (CreateConfigChangeEnts ids selfID term commit) := by
  unfold CreateConfigChangeEnts
  exact (List.pairwise_lt_range _).map _ (fun a b hab => by simpa using hab)

/-- The last synthesized entry sits at `commit + n` where `n` is the
number of synthesized entries. -/
theorem createConfigChangeEnts_getLast (c t : Nat) :
    ∀ (n : Nat), n ≠ 0 →
      ((List.range n).map
          (fun k => ({ index := c + 1 + k, term := t } : Entry))).getLast? =
        some { index := c + n, term := t } := by
  intro n hn
  cases n with
  | zero => exact absurd rfl hn
  | succ m =>
    rw [List.range_succ, List.map_append]
    simp only [List.map_cons, List.map_nil, List.getLast?_concat]
    have : c + 1 + m = c + (m + 1) := by omega
    rw [this]

/-- Appending never drops entries: the entry list of the result is the
old list followed by the appended entries. -/
theorem appendAndCommitEntries_ents (w : BootstrappedWAL) (ents : List Entry) :
    (w.AppendAndCommitEntries ents).ents = w.ents ++ ents := by
  unfold BootstrappedWAL.AppendAndCommitEntries
  cases h : (w.ents ++ ents).getLast? <;> rfl

/-- When the combined list is non-empty, the commit marker is set to
the index of its last entry. -/
theorem appendAndCommitEntries_st (w : BootstrappedWAL) (ents : List Entry)
    (last : Entry) (h : (w.ents ++ ents).getLast? = some last) :
    (w.AppendAndCommitEntries ents).st =
      w.st.map (fun st => { st with commit := last.index }) := by
  unfold BootstrappedWAL.AppendAndCommitEntries
  rw [h]

/-- The forced-recovery branch of `bootstrapWALFromSnapshot`, spelled
out: truncate to the committed prefix, then append-and-commit the
synthesized config-change entries. -/
theorem bootstrapWALFromSnapshot_force (r : WALReadResult) (ids : List Nat) :
    bootstrapWALFromSnapshot true r ids =
      BootstrappedWAL.AppendAndCommitEntries
        { st := some r.st
          ents := commitedEntriesLoop r.st.commit r.ents
          snapshot := r.snapshot }
        (CreateConfigChangeEnts ids r.nodeID r.st.term r.st.commit) := rfl

/-- C3: on a forced-recovery WAL bootstrap with contiguous, strictly
increasing entries, every retained entry has index at most the WAL
commit marker; every synthesized config-change entry has index strictly
above every retained entry, in strictly increasing order; the resulting
entry list is the retained prefix followed by the synthesized entries;
and after the append the commit marker equals the index of the last
appended entry (prior commit plus the number of synthesized entries). -/
theorem wal_force_new_cluster_properties :
    ∀ (r : WALReadResult) (ids : List Nat),
      List.Chain' (fun a b => b.index = a.index + 1) r.ents →
      (∀ e ∈ commitedEntriesLoop r.st.commit r.ents, e.index ≤ r.st.commit) ∧
      (∀ e ∈ CreateConfigChangeEnts ids r.nodeID r.st.term r.st.commit,
        ∀ e2 ∈ commitedEntriesLoop r.st.commit r.ents, e2.index < e.index) ∧
      List.Pairwise (fun a b => a.index < b.index)
        (CreateConfigChangeEnts ids r.nodeID r.st.term r.st.commit) ∧
      (bootstrapWALFromSnapshot true r ids).ents =
        commitedEntriesLoop r.st.commit r.ents ++
          CreateConfigChangeEnts ids r.nodeID r.st.term r.st.commit ∧
      (∀ last,
        (CreateConfigChangeEnts ids r.nodeID r.st.term r.st.commit).getLast? =
          some last →
        (bootstrapWALFromSnapshot true r ids).st =
          some { r.st with commit := last.index }) ∧
      (CreateConfigChangeEnts ids r.nodeID r.st.term r.st.commit ≠ [] →
        (bootstrapWALFromSnapshot true r ids).st =
          some { r.st with commit := r.st.commit +
            (CreateConfigChangeEnts ids r.nodeID r.st.term r.st.commit).length }) := by
  intro r ids hchain
  have hents : (bootstrapWALFromSnapshot true r ids).ents =
      commitedEntriesLoop r.st.commit r.ents ++
        CreateConfigChangeEnts ids r.nodeID r.st.term r.st.commit := by
    rw [bootstrapWALFromSnapshot_force, appendAndCommitEntries_ents]
  have hstlast : ∀ last,
      (CreateConfigChangeEnts ids r.nodeID r.st.term r.st.commit).getLast? =
        some last →
      (bootstrapWALFromSnapshot true r ids).st =
        some { r.st with commit := last.index } := by
    intro last hlast
    have hne : CreateConfigChangeEnts ids r.nodeID r.st.term r.st.commit ≠ [] := by
      intro hnil
      rw [hnil] at hlast
      cases hlast
    have happ : ((⟨some r.st, commitedEntriesLoop r.st.commit r.ents,
          r.snapshot⟩ : BootstrappedWAL).ents ++
        CreateConfigChangeEnts ids r.nodeID r.st.term r.st.commit).getLast? =
        some last := by
      show (commitedEntriesLoop r.st.commit r.ents ++
        CreateConfigChangeEnts ids r.nodeID r.st.term r.st.commit).getLast? =
        some last
      rw [List.getLast?_append_of_ne_nil _ hne, hlast]
    rw [bootstrapWALFromSnapshot_force,
      appendAndCommitEntries_st _ _ last happ]
    rfl
  refine ⟨commitedEntriesLoop_le r.st.commit r.ents, ?_, ?_, hents, hstlast, ?_⟩
  · intro e he e2 he2
    have h1 := (createConfigChangeEnts_index_gt ids r.nodeID r.st.term r.st.commit
      e he).1
    have h2 := commitedEntriesLoop_le r.st.commit r.ents e2 he2
    omega
  · exact createConfigChangeEnts_increasing ids r.nodeID r.st.term r.st.commit
  · intro hne
    have hlen : (ids.filter (fun i => i != r.nodeID)).length ≠ 0 := by
      intro h0
      apply hne
      unfold CreateConfigChangeEnts
      rw [h0]
      rfl
    have hlast := createConfigChangeEnts_getLast r.st.commit r.st.term
      (ids.filter (fun i => i != r.nodeID)).length hlen
    have hst := hstlast { index := r.st.commit +
        (ids.filter (fun i => i != r.nodeID)).length, term := r.st.term }
      (by unfold CreateConfigChangeEnts; exact hlast)
    rw [hst]
    have hlength : (CreateConfigChangeEnts ids r.nodeID r.st.term r.st.commit).length =
        (ids.filter (fun i => i != r.nodeID)).length := by
      unfold CreateConfigChangeEnts
      rw [List.length_map, List.length_range]
    rw [hlength]

/-- Witness for forced recovery: prior commit 50, contiguous entries at
indices 49–51, member IDs {1, 2, 3} with local node 1: entry 51 is
discarded, two synthetic entries are appended at indices 51 and 52, and
the new commit marker is 52 = 51 + 2 − 1. -/
theorem wal_force_new_cluster_properties_witness :
    List.Chain' (fun a b => b.index = a.index + 1)
      [({ index := 49, term := 2 } : Entry), { index := 50, term := 2 },
        { index := 51, term := 2 }] ∧
    (bootstrapWALFromSnapshot true
      { st := { term := 2, vote := 0, commit := 50 }
        ents := [{ index := 49, term := 2 }, { index := 50, term := 2 },
          { index := 51, term := 2 }]
        snapshot := none
        nodeID := 1
        clusterID := 4 } [1, 2, 3]).st =
      some { term := 2, vote := 0, commit := 52 } := by
  constructor
  · simp [List.chain'_cons, List.chain'_singleton]
  · have h := wal_force_new_cluster_properties
      { st := { term := 2, vote := 0, commit := 50 }
        ents := [{ index := 49, term := 2 }, { index := 50, term := 2 },
          { index := 51, term := 2 }]
        snapshot := none
        nodeID := 1
        clusterID := 4 } [1, 2, 3]
      (by simp [List.chain'_cons, List.chain'_singleton])
    exact h.2.2.2.2.1 { index := 52, term := 2 } (by decide)

end EtcdBootstrap
